import Mathlib

/-!
Verification of the snowflake-zero repository.

This file gives a shallow embedding of the four source files:

* `snowflake_automation/run_all.py` — the script runner (`main`);
* `snowflake_automation/utils.py` — `get_connection` and `execute_sql_file`;
* `fetch_scripts.py` — the script fetcher (module-level loop);
* `app.py` — the Cortex AI query construction (`safe_input` and the four
  query strings built in the Cortex AI tab).

Remote behaviour (the Snowflake connector, the network) is modelled by
explicit environments: a `FileEnv` maps a script filename to the outcome of
opening and reading it (an I/O error, or the file's statement list as split
by the connector's own statement-splitting logic, each statement carrying
its remote outcome), and a `NetEnv` maps a URL to the outcome of fetching
and UTF-8-decoding it.  Console output and side effects are modelled as an
explicit trace of events; `render` ties each event back to the exact text
printed by the Python source.
-/

/-- Remote outcome of one SQL statement: the connector either completes it
and hands back a cursor whose `sfqid` is the remote query id, or raises with
an error message.  `execute_string` raises at the first failing statement. -/
inductive Stmt where
  | ok (qid : String)
  | err (msg : String)
deriving DecidableEq, Repr

/-- A script file's content, as already split into statements by the
connector (splitting is delegated in the source, not reimplemented). -/
abbrev Content := List Stmt

/-- Environment for local file reads: `open`/`read` either raises an I/O
error (".error") or yields the file's content (".ok"). -/
abbrev FileEnv := String → Except String Content

/-- Boolean test that a read succeeded. -/
def readOk (env : FileEnv) (f : String) : Bool :=
  match env f with
  | Except.ok _ => true
  | Except.error _ => false

/-- One event of a runner trace.  Each constructor corresponds to one print
statement of `run_all.py`/`utils.py` (see `render`), except `execCall`
(an invocation of `conn.execute_string`) and `close` (`conn.close()`),
which are side effects with no console text. -/
inductive Ev where
  | start
  | connected
  | connectFailed (e : String)
  | noScripts
  | running (f : String)
  | executing (p : String)
  | execCall (p : String)
  | stmtSuccess (q : String)
  | fileError (p m : String)
  | execFailed (f e : String)
  | complete
  | close
deriving DecidableEq, Repr

/-- The console text of each trace event, exactly as printed by the Python
source (f-strings written out). -/
def render : Ev → List String
  | Ev.start => ["Starting Zero to Snowflake Automation..."]
  | Ev.connected => ["Connected to Snowflake."]
  | Ev.connectFailed e => ["Failed to connect to Snowflake: " ++ e]
  | Ev.noScripts => ["No SQL scripts found in scripts directory."]
  | Ev.running f => ["--- Running " ++ f ++ " ---"]
  | Ev.executing p => ["Executing " ++ p ++ "..."]
  | Ev.execCall _ => []
  | Ev.stmtSuccess q => ["Success: Statement executed (Query ID: " ++ q ++ ")"]
  | Ev.fileError p m => ["Error executing file " ++ p ++ ":", "Error details: " ++ m]
  | Ev.execFailed f e => ["Failed to execute " ++ f ++ ": " ++ e]
  | Ev.complete => ["Automation complete."]
  | Ev.close => []

/-- `conn.execute_string` on a statement list: statements run in textual
order; if all succeed it returns the cursors (their query ids), otherwise it
raises the first failure's message (statements before it did execute). -/
def runStmts : Content → Except String (List String)
  | [] => Except.ok []
  | Stmt.ok q :: rest => (runStmts rest).map (fun qs => q :: qs)
  | Stmt.err m :: _ => Except.error m

/-- Number of statements the connector actually executed: everything up to
and including the first failing statement. -/
def executedCount : Content → Nat
  | [] => 0
  | Stmt.ok _ :: rest => executedCount rest + 1
  | Stmt.err _ :: _ => 1

/-- `utils.execute_sql_file`: prints the "Executing" line, opens and reads
the file (an exception here escapes to the caller), then inside a
try/except invokes `execute_string` and either prints one success line per
cursor or catches the exception and prints the two file-level error lines.
Returns the trace together with the call's escape behaviour (".error" =
an exception propagated to the caller). -/
def execute_sql_file (env : FileEnv) (path : String) : List Ev × Except String Unit :=
  match env path with
  | Except.error e => ([Ev.executing path], Except.error e)
  | Except.ok content =>
    match runStmts content with
    | Except.ok qids =>
      (Ev.executing path :: Ev.execCall path :: qids.map Ev.stmtSuccess, Except.ok ())
    | Except.error m =>
      ([Ev.executing path, Ev.execCall path, Ev.fileError path m], Except.ok ())

/-- The `*.sql` glob pattern: the filename ends in ".sql".  (Directory
entries are assumed not to start with a dot, the only case where glob and a
plain suffix test differ.) -/
def matchesSql (f : String) : Bool :=
  List.isSuffixOf ".sql".data f.data

/-- Discovery in `run_all.main`: `sorted(glob.glob(..., "*.sql"))` — the
matching filenames in ascending lexicographic order.  (The source sorts
full paths; all share the `scripts_dir` prefix, so this orders exactly as
the filenames do.) -/
def sortFiles (dirFiles : List String) : List String :=
  List.insertionSort (· ≤ ·) (dirFiles.filter (fun f => matchesSql f))

/-- The per-file loop of `run_all.main`: print the "--- Running f ---"
header, call `execute_sql_file` inside a try/except, and on an escaped
exception print the "Failed to execute" line and continue with the next
file. -/
def processFiles (env : FileEnv) : List String → List Ev
  | [] => []
  | f :: rest =>
    Ev.running f ::
      ((match execute_sql_file env f with
        | (evs, Except.ok _) => evs
        | (evs, Except.error e) => evs ++ [Ev.execFailed f e]) ++ processFiles env rest)

/-- `run_all.main`: connect (a failure prints and returns), discover and
sort the scripts, return early when none are found, otherwise run the
per-file loop, print the completion marker and close the connection.
`connect` is the outcome of `get_connection` (".error" = it raised). -/
def mainRun (connect : Except String Unit) (dirFiles : List String) (env : FileEnv) : List Ev :=
  Ev.start ::
    match connect with
    | Except.error e => [Ev.connectFailed e]
    | Except.ok _ =>
      Ev.connected ::
        (if (sortFiles dirFiles).isEmpty then [Ev.noScripts]
         else processFiles env (sortFiles dirFiles) ++ [Ev.complete, Ev.close])

/-- Filenames for which `conn.execute_string` was invoked, in order. -/
def execCalls : List Ev → List String
  | [] => []
  | Ev.execCall p :: rest => p :: execCalls rest
  | _ :: rest => execCalls rest

/-- Filenames whose loop iteration was reached (the "--- Running f ---"
header was printed), in order. -/
def attempts : List Ev → List String
  | [] => []
  | Ev.running f :: rest => f :: attempts rest
  | _ :: rest => attempts rest

/-- Number of `conn.close()` calls in a trace. -/
def closeCount : List Ev → Nat
  | [] => 0
  | Ev.close :: rest => closeCount rest + 1
  | _ :: rest => closeCount rest

/-- Query ids of the per-statement success lines, in order. -/
def successQids : List Ev → List String
  | [] => []
  | Ev.stmtSuccess q :: rest => q :: successQids rest
  | _ :: rest => successQids rest

/-- The file-level error records (path, error detail), in order. -/
def fileErrors : List Ev → List (String × String)
  | [] => []
  | Ev.fileError p m :: rest => (p, m) :: fileErrors rest
  | _ :: rest => fileErrors rest

/-- Number of result records: per-statement success lines plus error
records. -/
def resultRecordCount (evs : List Ev) : Nat :=
  (successQids evs).length + (fileErrors evs).length

/-! ### The script fetcher (`fetch_scripts.py`) -/

/-- Environment for the fetcher: a URL maps to the fetched and UTF-8-decoded
text, or to the error raised by `urlopen`/`read`/`decode`. -/
abbrev NetEnv := String → Except String String

/-- One event of a fetcher trace: the "Downloading" print, an
open-for-write plus write of the decoded content at the destination
filename, the "Saved" print, or the caught-failure print. -/
inductive FEv where
  | downloading (fn : String)
  | write (fn content : String)
  | saved (fn : String)
  | failed (fn e : String)
deriving DecidableEq, Repr

/-- The body of the per-item `try` block: fetch, read and decode the full
content (any failure raises before the destination file is opened), then
open the destination for writing and write the content. -/
def fetchOne (net : NetEnv) (fn url : String) : Except String (List FEv)  :=
  match net url with
  | Except.ok content => Except.ok [FEv.write fn content]
  | Except.error e => Except.error e

/-- The module-level loop of `fetch_scripts.py`: for each (filename, URL)
entry, print "Downloading", run the `try` body, and either print "Saved" or
catch the exception and print "Failed to download". -/
def fetchAll (net : NetEnv) : List (String × String) → List FEv
  | [] => []
  | (fn, url) :: rest =>
    FEv.downloading fn ::
      ((match fetchOne net fn url with
        | Except.ok evs => evs ++ [FEv.saved fn]
        | Except.error e => [FEv.failed fn e]) ++ fetchAll net rest)

/-- The `files` mapping of `fetch_scripts.py` (dict keys are unique). -/
def files : List (String × String) :=
  [("00_setup.sql", "https://raw.githubusercontent.com/Snowflake-Labs/sfguide-getting-started-from-zero-to-snowflake/main/scripts/setup.sql"),
   ("01_vignette_1.sql", "https://raw.githubusercontent.com/Snowflake-Labs/sfguide-getting-started-from-zero-to-snowflake/main/scripts/vignette-1.sql"),
   ("02_vignette_2.sql", "https://raw.githubusercontent.com/Snowflake-Labs/sfguide-getting-started-from-zero-to-snowflake/main/scripts/vignette-2.sql"),
   ("03_vignette_3.sql", "https://raw.githubusercontent.com/Snowflake-Labs/sfguide-getting-started-from-zero-to-snowflake/main/scripts/vignette-3-aisql.sql"),
   ("04_vignette_4.sql", "https://raw.githubusercontent.com/Snowflake-Labs/sfguide-getting-started-from-zero-to-snowflake/main/scripts/vignette-4.sql"),
   ("05_vignette_5.sql", "https://raw.githubusercontent.com/Snowflake-Labs/sfguide-getting-started-from-zero-to-snowflake/main/scripts/vignette-5.sql"),
   ("06_streamlit_app.py", "https://raw.githubusercontent.com/Snowflake-Labs/sfguide-getting-started-from-zero-to-snowflake/main/streamlit/streamlit_app.py")]

/-- The (filename, content) write events of a fetcher trace, in order. -/
def writes : List FEv → List (String × String)
  | [] => []
  | FEv.write fn c :: rest => (fn, c) :: writes rest
  | _ :: rest => writes rest

/-- Number of "Failed to download" error lines in a fetcher trace. -/
def failedCount : List FEv → Nat
  | [] => 0
  | FEv.failed _ _ :: rest => failedCount rest + 1
  | _ :: rest => failedCount rest

/-- Apply a trace's write events, in order, to an initial file system
(filename → content if the file exists). -/
def applyWrites (fs0 : String → Option String) : List (String × String) → (String → Option String)
  | [] => fs0
  | (fn, c) :: rest => applyWrites (fun n => if n = fn then some c else fs0 n) rest

/-! ### Connection setup (`utils.get_connection`) -/

/-- The seven `SNOWFLAKE_*` environment variables; `none` models an unset
variable (Python `os.getenv` returning `None`). -/
structure EnvVars where
  user : Option String
  password : Option String
  account : Option String
  warehouse : Option String
  role : Option String
  database : Option String
  schema : Option String
deriving DecidableEq, Repr

/-- What the interactive user would type at each prompt. -/
structure Prompts where
  account : String
  user : String
  password : String
  warehouse : String
  role : String
  database : String
  schema : String
deriving DecidableEq, Repr

/-- A prompt event: `visible` is a plain `input(label)` call (echoed to the
console), `hidden` is `getpass.getpass(label)` (not echoed). -/
inductive PromptEv where
  | visible (label : String)
  | hidden (label : String)
deriving DecidableEq, Repr

/-- Python truthiness of an optional string: `None` and the empty string
are falsy. -/
def truthy : Option String → Bool
  | none => false
  | some s => !(s == "")

/-- Python `v or fallback` where `v` is an optional string and `fallback`
a string: the value of `v` when truthy, else the fallback. -/
def orFallback (v : Option String) (fb : String) : String :=
  match v with
  | some s => if s == "" then fb else s
  | none => fb

/-- Python `s or dflt` on two strings. -/
def orDefault (s dflt : String) : String :=
  if s == "" then dflt else s

/-- The prompt emitted for one parameter: `input`/`getpass` is called
exactly when the parameter is falsy (Python `or` short-circuits). -/
def promptIf (v : Option String) (ev : PromptEv) : List PromptEv :=
  if truthy v then [] else [ev]

def accountLabel : String := "Snowflake Account (e.g. xy12345.us-east-1): "

def userLabel : String := "Snowflake User: "

def passwordLabel : String := "Snowflake Password: "

def warehouseLabel : String := "Warehouse (default COMPUTE_WH): "

def roleLabel : String := "Role (default ACCOUNTADMIN): "

def databaseLabel : String := "Database (optional): "

def schemaLabel : String := "Schema (optional): "

/-- The keyword arguments handed to `snowflake.connector.connect`;
`none` models passing Python `None`. -/
structure ConnParams where
  user : Option String
  password : Option String
  account : Option String
  warehouse : Option String
  role : Option String
  database : Option String
  schema : Option String
deriving DecidableEq, Repr

/-- `utils.get_connection`: read the seven environment variables; if user,
password and account are all truthy, connect with the variables as they
are (unset ones passed through as `None`); otherwise prompt, in source
order, for exactly the falsy parameters — the password via `getpass`,
warehouse and role with defaults `COMPUTE_WH`/`ACCOUNTADMIN` — and connect
with the resulting values.  Returns the connect arguments and the prompt
trace. -/
def get_connection (env : EnvVars) (pr : Prompts) : ConnParams × List PromptEv :=
  if truthy env.user && truthy env.password && truthy env.account then
    ({ user := env.user, password := env.password, account := env.account,
       warehouse := env.warehouse, role := env.role,
       database := env.database, schema := env.schema }, [])
  else
    ({ user := some (orFallback env.user pr.user),
       password := some (orFallback env.password pr.password),
       account := some (orFallback env.account pr.account),
       warehouse := some (orDefault (orFallback env.warehouse pr.warehouse) "COMPUTE_WH"),
       role := some (orDefault (orFallback env.role pr.role) "ACCOUNTADMIN"),
       database := some (orFallback env.database pr.database),
       schema := some (orFallback env.schema pr.schema) },
     promptIf env.account (PromptEv.visible accountLabel) ++
     promptIf env.user (PromptEv.visible userLabel) ++
     promptIf env.password (PromptEv.hidden passwordLabel) ++
     promptIf env.warehouse (PromptEv.visible warehouseLabel) ++
     promptIf env.role (PromptEv.visible roleLabel) ++
     promptIf env.database (PromptEv.visible databaseLabel) ++
     promptIf env.schema (PromptEv.visible schemaLabel))

/-! ### Cortex AI query construction (`app.py`) -/

/-- The single-quote character. -/
def squote : Char := Char.ofNat 39

/-- A one-character string holding a single quote. -/
def quoteStr : String := String.mk [squote]

/-- Each single quote doubled, all other characters kept: the semantics of
Python `s.replace(quoteStr, quoteStr ++ quoteStr)` for the one-character pattern. -/
def escData : List Char → List Char
  | [] => []
  | c :: rest => if c = squote then c :: c :: escData rest else c :: escData rest

/-- `app.py` line 252: `safe_input = user_input.replace(...) if user_input
else ""`. -/
def safe_input (user_input : String) : String :=
  if user_input == "" then "" else String.mk (escData user_input.data)

/-- Number of single-quote characters in a string. -/
def countQuote (s : String) : Nat :=
  s.data.count squote

/-- The query string built for Sentiment Analysis. -/
def sentimentQuery (u : String) : String :=
  "SELECT SNOWFLAKE.CORTEX.SENTIMENT(" ++ quoteStr ++ safe_input u ++ quoteStr ++ ") AS VAL"

/-- The query string built for Translation (source language fixed to en). -/
def translateQuery (u lang : String) : String :=
  "SELECT SNOWFLAKE.CORTEX.TRANSLATE(" ++ quoteStr ++ safe_input u ++ quoteStr ++ ", " ++
    quoteStr ++ "en" ++ quoteStr ++ ", " ++ quoteStr ++ lang ++ quoteStr ++ ") AS VAL"

/-- The query string built for Summarization. -/
def summarizeQuery (u : String) : String :=
  "SELECT SNOWFLAKE.CORTEX.SUMMARIZE(" ++ quoteStr ++ safe_input u ++ quoteStr ++ ") AS VAL"

/-- The query string built for Idea Extraction. -/
def extractQuery (u : String) : String :=
  "SELECT SNOWFLAKE.CORTEX.EXTRACT_ANSWER(" ++ quoteStr ++ safe_input u ++ quoteStr ++ ", " ++
    quoteStr ++ "What was good and what was bad?" ++ quoteStr ++ ") AS VAL"

/-! ### Trace bookkeeping lemmas -/

theorem execCalls_append (a b : List Ev) :
    execCalls (a ++ b) = execCalls a ++ execCalls b := by
  induction a with
  | nil => rfl
  | cons e rest ih => cases e <;> simp [execCalls, ih]

theorem attempts_append (a b : List Ev) :
    attempts (a ++ b) = attempts a ++ attempts b := by
  induction a with
  | nil => rfl
  | cons e rest ih => cases e <;> simp [attempts, ih]

theorem closeCount_append (a b : List Ev) :
    closeCount (a ++ b) = closeCount a + closeCount b := by
  induction a with
  | nil => simp [closeCount]
  | cons e rest ih => cases e <;> simp [closeCount, ih, Nat.add_assoc, Nat.add_comm]

theorem execCalls_map_stmtSuccess (qs : List String) :
    execCalls (qs.map Ev.stmtSuccess) = [] := by
  induction qs with
  | nil => rfl
  | cons q rest ih => simp [execCalls, ih]

theorem attempts_map_stmtSuccess (qs : List String) :
    attempts (qs.map Ev.stmtSuccess) = [] := by
  induction qs with
  | nil => rfl
  | cons q rest ih => simp [attempts, ih]

theorem closeCount_map_stmtSuccess (qs : List String) :
    closeCount (qs.map Ev.stmtSuccess) = 0 := by
  induction qs with
  | nil => rfl
  | cons q rest ih => simp [closeCount, ih]

theorem successQids_map_stmtSuccess (qs : List String) :
    successQids (qs.map Ev.stmtSuccess) = qs := by
  induction qs with
  | nil => rfl
  | cons q rest ih => simp [successQids, ih]

theorem fileErrors_map_stmtSuccess (qs : List String) :
    fileErrors (qs.map Ev.stmtSuccess) = [] := by
  induction qs with
  | nil => rfl
  | cons q rest ih => simp [fileErrors, ih]

/-! ### Behaviour of `execute_sql_file` by cases -/

theorem esf_read_error {env : FileEnv} {path e : String}
    (h : env path = Except.error e) :
    execute_sql_file env path = ([Ev.executing path], Except.error e) := by
  simp [execute_sql_file, h]

theorem esf_ok_ok {env : FileEnv} {path : String} {content : Content}
    {qids : List String}
    (h1 : env path = Except.ok content) (h2 : runStmts content = Except.ok qids) :
    execute_sql_file env path =
      (Ev.executing path :: Ev.execCall path :: qids.map Ev.stmtSuccess,
       Except.ok ()) := by
  simp [execute_sql_file, h1, h2]

theorem esf_ok_err {env : FileEnv} {path : String} {content : Content} {m : String}
    (h1 : env path = Except.ok content) (h2 : runStmts content = Except.error m) :
    execute_sql_file env path =
      ([Ev.executing path, Ev.execCall path, Ev.fileError path m], Except.ok ()) := by
  simp [execute_sql_file, h1, h2]

/-! ### Behaviour of the per-file loop -/

theorem attempts_processFiles (env : FileEnv) (fs : List String) :
    attempts (processFiles env fs) = fs := by
  induction fs with
  | nil => rfl
  | cons f rest ih =>
    cases hef : env f with
    | error e =>
      simp [processFiles, esf_read_error hef, attempts, attempts_append, ih]
    | ok c =>
      cases hrs : runStmts c with
      | error m =>
        simp [processFiles, esf_ok_err hef hrs, attempts, attempts_append, ih]
      | ok qids =>
        simp [processFiles, esf_ok_ok hef hrs, attempts, attempts_append,
          attempts_map_stmtSuccess, ih]

theorem closeCount_processFiles (env : FileEnv) (fs : List String) :
    closeCount (processFiles env fs) = 0 := by
  induction fs with
  | nil => rfl
  | cons f rest ih =>
    cases hef : env f with
    | error e =>
      simp [processFiles, esf_read_error hef, closeCount, closeCount_append, ih]
    | ok c =>
      cases hrs : runStmts c with
      | error m =>
        simp [processFiles, esf_ok_err hef hrs, closeCount, closeCount_append, ih]
      | ok qids =>
        simp [processFiles, esf_ok_ok hef hrs, closeCount, closeCount_append,
          closeCount_map_stmtSuccess, ih]

theorem execCalls_processFiles (env : FileEnv) (fs : List String)
    (h : ∀ f ∈ fs, readOk env f = true) :
    execCalls (processFiles env fs) = fs := by
  induction fs with
  | nil => rfl
  | cons f rest ih =>
    have hf : readOk env f = true := h f (List.mem_cons_self f rest)
    have hrest : ∀ g ∈ rest, readOk env g = true :=
      fun g hg => h g (List.mem_cons_of_mem f hg)
    cases hef : env f with
    | error e => simp [readOk, hef] at hf
    | ok c =>
      cases hrs : runStmts c with
      | error m =>
        simp [processFiles, esf_ok_err hef hrs, execCalls, execCalls_append,
          ih hrest]
      | ok qids =>
        simp [processFiles, esf_ok_ok hef hrs, execCalls, execCalls_append,
          execCalls_map_stmtSuccess, ih hrest]

/-! ### Shape of a run of `mainRun` -/

theorem mainRun_ok_empty {dirFiles : List String} (env : FileEnv)
    (h : sortFiles dirFiles = []) :
    mainRun (Except.ok ()) dirFiles env = [Ev.start, Ev.connected, Ev.noScripts] := by
  simp [mainRun, h]

theorem mainRun_ok_nonempty {dirFiles : List String} (env : FileEnv)
    (h : sortFiles dirFiles ≠ []) :
    mainRun (Except.ok ()) dirFiles env =
      Ev.start :: Ev.connected ::
        (processFiles env (sortFiles dirFiles) ++ [Ev.complete, Ev.close]) := by
  have hemp : (sortFiles dirFiles).isEmpty = false := by
    cases hs : sortFiles dirFiles with
    | nil => exact absurd hs h
    | cons a l => rfl
  simp [mainRun, hemp]

theorem runStmts_ok_length {content : Content} {qids : List String}
    (h : runStmts content = Except.ok qids) : qids.length = content.length := by
  induction content generalizing qids with
  | nil =>
    simp only [runStmts] at h
    cases h
    rfl
  | cons s rest ih =>
    cases s with
    | ok q =>
      simp only [runStmts] at h
      cases hr : runStmts rest with
      | error m => rw [hr] at h; cases h
      | ok qs =>
        rw [hr] at h
        cases h
        simp [ih hr]
    | err m => simp only [runStmts] at h; cases h

/-! ### Claim theorems for the script runner -/

/-- C1: for every directory (duplicate-free listing) whose matching `*.sql`
files are all readable, the runner invokes the connection's
multi-statement execute capability exactly once per matching file — the
invocation list is exactly the discovered list, whose length is the number
of matching files and which is strictly ascending in the lexicographic
filename order. -/
theorem c1_exec_once_per_file_sorted (dirFiles : List String) (env : FileEnv)
    (hread : ∀ f ∈ sortFiles dirFiles, readOk env f = true)
    (hnd : dirFiles.Nodup) :
    execCalls (mainRun (Except.ok ()) dirFiles env) = sortFiles dirFiles
    ∧ (sortFiles dirFiles).length
        = (dirFiles.filter (fun f => matchesSql f)).length
    ∧ (sortFiles dirFiles).Pairwise (· < ·) := by
  refine ⟨?_, ?_, ?_⟩
  · by_cases hs : sortFiles dirFiles = []
    · rw [mainRun_ok_empty env hs, hs]; rfl
    · rw [mainRun_ok_nonempty env hs]
      simp [execCalls, execCalls_append, execCalls_processFiles env _ hread]
  · exact (List.perm_insertionSort _ _).length_eq
  · have hsorted : (sortFiles dirFiles).Sorted (· ≤ ·) :=
      List.sorted_insertionSort _ _
    have hnd2 : (sortFiles dirFiles).Nodup :=
      ((List.perm_insertionSort _ _).nodup_iff).mpr (hnd.filter _)
    exact (List.pairwise_and_iff.mpr ⟨hsorted, hnd2⟩).imp
      (fun hab => lt_of_le_of_ne hab.1 hab.2)

theorem c1_exec_once_per_file_sorted_witness :
    execCalls (mainRun (Except.ok ()) ["01_b.sql", "00_a.sql", "notes.txt"]
        (fun _ => Except.ok [Stmt.ok "q1"]))
      = sortFiles ["01_b.sql", "00_a.sql", "notes.txt"]
    ∧ (sortFiles ["01_b.sql", "00_a.sql", "notes.txt"]).length
        = ((["01_b.sql", "00_a.sql", "notes.txt"] : List String).filter
            (fun f => matchesSql f)).length
    ∧ (sortFiles ["01_b.sql", "00_a.sql", "notes.txt"]).Pairwise (· < ·) :=
  c1_exec_once_per_file_sorted _ _ (fun f _ => rfl) (by decide)

/-- C2 counterexample: on a run where the connection is established but
discovery yields zero files, the runner returns early and `conn.close()` is
never called — the claim's "closed exactly once ... including the run
where discovery yields zero files" fails on this input. -/
theorem c2_zero_files_connection_not_closed :
    closeCount (mainRun (Except.ok ()) [] (fun _ => Except.ok [])) ≠ 1 := by
  decide

/-- C2 (amended): on every run in which the connection is established and
discovery yields at least one file, the connection is closed exactly once,
after all files are processed and together with the completion marker;
a zero-file run returns early without closing the connection. -/
theorem c2_close_once_when_files_found (dirFiles : List String) (env : FileEnv)
    (h : sortFiles dirFiles ≠ []) :
    closeCount (mainRun (Except.ok ()) dirFiles env) = 1
    ∧ ∃ pre, mainRun (Except.ok ()) dirFiles env = pre ++ [Ev.complete, Ev.close] := by
  rw [mainRun_ok_nonempty env h]
  constructor
  · simp [closeCount, closeCount_append, closeCount_processFiles]
  · exact ⟨Ev.start :: Ev.connected :: processFiles env (sortFiles dirFiles), by simp⟩

theorem c2_close_once_when_files_found_witness :
    closeCount (mainRun (Except.ok ()) ["a.sql"] (fun _ => Except.ok [])) = 1
    ∧ ∃ pre, mainRun (Except.ok ()) ["a.sql"] (fun _ => Except.ok [])
        = pre ++ [Ev.complete, Ev.close] :=
  c2_close_once_when_files_found _ _ (by decide)

/-- C3: for every environment — any pattern of per-file read failures or
remote execution failures, in particular when file k fails — the runner's
loop still reaches every discovered file, in order: no per-file failure
aborts the batch. -/
theorem c3_failures_do_not_abort_batch (dirFiles : List String) (env : FileEnv) :
    attempts (mainRun (Except.ok ()) dirFiles env) = sortFiles dirFiles := by
  by_cases hs : sortFiles dirFiles = []
  · rw [mainRun_ok_empty env hs, hs]; rfl
  · rw [mainRun_ok_nonempty env hs]
    simp [attempts, attempts_append, attempts_processFiles]

/-- C4 counterexample: a file with two statements whose second fails — the
connector executed both statements, yet the trace holds a single
file-level error record and no per-statement success line for the first
statement, so the runner does not emit one result line per executed
statement. -/
theorem c4_results_not_per_statement :
    resultRecordCount
        (execute_sql_file (fun _ => Except.ok [Stmt.ok "q1", Stmt.err "boom"])
          "01_file.sql").1
      ≠ executedCount [Stmt.ok "q1", Stmt.err "boom"]
    ∧ successQids
        (execute_sql_file (fun _ => Except.ok [Stmt.ok "q1", Stmt.err "boom"])
          "01_file.sql").1 = [] := by
  decide

/-- C4 (amended): result lines are per statement only on fully successful
files: when every statement of a file succeeds the runner emits exactly one
success line per statement, in order and carrying that statement's query
identifier; when any statement fails it emits no per-statement line at all
and instead a single file-level error record carrying the first failure's
exception detail. -/
theorem c4_result_lines_per_file (env : FileEnv) (path : String) (content : Content)
    (h : env path = Except.ok content) :
    (∀ qids, runStmts content = Except.ok qids →
        successQids (execute_sql_file env path).1 = qids
        ∧ qids.length = content.length
        ∧ fileErrors (execute_sql_file env path).1 = [])
    ∧ (∀ m, runStmts content = Except.error m →
        successQids (execute_sql_file env path).1 = []
        ∧ fileErrors (execute_sql_file env path).1 = [(path, m)]) := by
  constructor
  · intro qids hq
    rw [esf_ok_ok h hq]
    refine ⟨?_, runStmts_ok_length hq, ?_⟩
    · simp [successQids, successQids_map_stmtSuccess]
    · simp [fileErrors, fileErrors_map_stmtSuccess]
  · intro m hm
    rw [esf_ok_err h hm]
    exact ⟨rfl, rfl⟩

theorem c4_result_lines_per_file_witness :
    successQids
        (execute_sql_file (fun _ => Except.ok [Stmt.ok "a", Stmt.ok "b"])
          "00_setup.sql").1
      = ["a", "b"] :=
  ((c4_result_lines_per_file (fun _ => Except.ok [Stmt.ok "a", Stmt.ok "b"])
      "00_setup.sql" [Stmt.ok "a", Stmt.ok "b"] rfl).1 ["a", "b"] rfl).1

/-- C7: when discovery finds zero `*.sql` files, the runner performs zero
execute calls and its whole trace is the start, connected and no-op report
lines — it terminates immediately and cleanly, reporting rather than
erroring. -/
theorem c7_zero_files_clean_noop (dirFiles : List String) (env : FileEnv)
    (h : dirFiles.filter (fun f => matchesSql f) = []) :
    mainRun (Except.ok ()) dirFiles env = [Ev.start, Ev.connected, Ev.noScripts]
    ∧ execCalls (mainRun (Except.ok ()) dirFiles env) = [] := by
  have hs : sortFiles dirFiles = [] := by unfold sortFiles; rw [h]; rfl
  rw [mainRun_ok_empty env hs]
  exact ⟨rfl, rfl⟩

theorem c7_zero_files_clean_noop_witness :
    mainRun (Except.ok ()) ["README.md", "data.csv"] (fun _ => Except.ok [])
      = [Ev.start, Ev.connected, Ev.noScripts]
    ∧ execCalls (mainRun (Except.ok ()) ["README.md", "data.csv"]
        (fun _ => Except.ok [])) = [] :=
  c7_zero_files_clean_noop _ _ (by decide)

/-- C9: `execute_sql_file` lets an exception escape to its caller exactly
when opening/reading the file raises (and it re-raises that very error);
whenever the read succeeds, every failure of the remote multi-statement
execution is caught internally and the call returns normally. -/
theorem c9_only_read_errors_escape (env : FileEnv) (path : String) :
    (∀ e, env path = Except.error e →
        (execute_sql_file env path).2 = Except.error e)
    ∧ (∀ content, env path = Except.ok content →
        (execute_sql_file env path).2 = Except.ok ()) := by
  constructor
  · intro e h
    rw [esf_read_error h]
  · intro c h
    cases hr : runStmts c with
    | ok qids => rw [esf_ok_ok h hr]
    | error m => rw [esf_ok_err h hr]

theorem c9_only_read_errors_escape_witness :
    (execute_sql_file (fun _ => Except.error "io failure") "00_setup.sql").2
      = Except.error "io failure" :=
  (c9_only_read_errors_escape (fun _ => Except.error "io failure")
    "00_setup.sql").1 "io failure" rfl

/-! ### Fetcher lemmas and claim theorems -/

/-- Boolean test that fetching and decoding a URL succeeds. -/
def fetchOk (net : NetEnv) (url : String) : Bool :=
  match net url with
  | Except.ok _ => true
  | Except.error _ => false

theorem writes_append (a b : List FEv) :
    writes (a ++ b) = writes a ++ writes b := by
  induction a with
  | nil => rfl
  | cons e rest ih => cases e <;> simp [writes, ih]

theorem failedCount_append (a b : List FEv) :
    failedCount (a ++ b) = failedCount a + failedCount b := by
  induction a with
  | nil => simp [failedCount]
  | cons e rest ih => cases e <;> simp [failedCount, ih, Nat.add_assoc, Nat.add_comm]

theorem fetch_counts_add (net : NetEnv) (entries : List (String × String)) :
    (writes (fetchAll net entries)).length + failedCount (fetchAll net entries)
        = entries.length
    ∧ failedCount (fetchAll net entries)
        = (entries.filter (fun en => !(fetchOk net en.2))).length := by
  induction entries with
  | nil => exact ⟨rfl, rfl⟩
  | cons en rest ih =>
    obtain ⟨fn, url⟩ := en
    have h1 := ih.1
    have h2 := ih.2
    cases hnet : net url with
    | ok c =>
      have hok : fetchOk net url = true := by simp [fetchOk, hnet]
      refine ⟨?_, ?_⟩
      · simp only [fetchAll, fetchOne, hnet, List.cons_append, List.nil_append,
          writes, failedCount, List.length_cons]
        omega
      · simp [fetchAll, fetchOne, hnet, writes, failedCount,
          List.filter_cons, hok, h2]
    | error e =>
      have hok : fetchOk net url = false := by simp [fetchOk, hnet]
      refine ⟨?_, ?_⟩
      · simp only [fetchAll, fetchOne, hnet, List.cons_append, List.nil_append,
          writes, failedCount, List.length_cons]
        omega
      · simp [fetchAll, fetchOne, hnet, writes, failedCount,
          List.filter_cons, hok, h2]

/-- C5: for every batch of entries and every network behaviour, with F the
number of entries whose fetch fails, the fetcher performs exactly
`entries.length − F` file writes and prints exactly F error lines; the loop
itself is a total function — every per-item failure is caught inside it. -/
theorem c5_fetch_batch_counts (net : NetEnv) (entries : List (String × String)) :
    (writes (fetchAll net entries)).length
        = entries.length - (entries.filter (fun en => !(fetchOk net en.2))).length
    ∧ failedCount (fetchAll net entries)
        = (entries.filter (fun en => !(fetchOk net en.2))).length := by
  have h := fetch_counts_add net entries
  refine ⟨?_, h.2⟩
  have h1 := h.1
  rw [h.2] at h1
  omega

theorem writes_names_in_entries (net : NetEnv) (entries : List (String × String))
    (fn : String) (hmem : fn ∈ (writes (fetchAll net entries)).map Prod.fst) :
    fn ∈ entries.map Prod.fst := by
  induction entries with
  | nil => simp [fetchAll, writes] at hmem
  | cons en rest ih =>
    obtain ⟨g, url⟩ := en
    cases hnet : net url with
    | ok c =>
      rw [fetchAll] at hmem
      simp only [fetchOne, hnet] at hmem
      simp only [writes, writes_append, List.cons_append, List.nil_append,
        List.map_cons, List.mem_cons] at hmem
      rcases hmem with h | h
      · simp [h]
      · simp only [List.map_cons, List.mem_cons]
        right
        apply ih
        simpa [writes] using h
    | error e =>
      rw [fetchAll] at hmem
      simp only [fetchOne, hnet] at hmem
      simp only [writes, List.cons_append, List.nil_append] at hmem
      simp only [List.map_cons, List.mem_cons]
      right
      apply ih
      simpa [writes] using hmem

theorem applyWrites_not_written (fn : String) :
    ∀ (ws : List (String × String)) (fs0 : String → Option String),
      fn ∉ ws.map Prod.fst → applyWrites fs0 ws fn = fs0 fn := by
  intro ws
  induction ws with
  | nil => intro fs0 _; rfl
  | cons w rest ih =>
    obtain ⟨n, c⟩ := w
    intro fs0 hmem
    simp only [List.map_cons, List.mem_cons] at hmem
    push_neg at hmem
    rw [applyWrites, ih _ hmem.2]
    simp [hmem.1]

/-- C10: when the names of the batch are distinct (dict keys) and the fetch
or decode of an entry's URL fails, the fetcher never opens that entry's
destination file for writing: no write event carries that filename, and
after applying all of the run's writes the file system is unchanged at that
path. -/
theorem c10_failed_fetch_never_writes (net : NetEnv)
    (entries : List (String × String)) (fn url e : String)
    (fs0 : String → Option String)
    (hmem : (fn, url) ∈ entries) (hnd : (entries.map Prod.fst).Nodup)
    (hfail : net url = Except.error e) :
    fn ∉ (writes (fetchAll net entries)).map Prod.fst
    ∧ applyWrites fs0 (writes (fetchAll net entries)) fn = fs0 fn := by
  have hnotin : fn ∉ (writes (fetchAll net entries)).map Prod.fst := by
    induction entries with
    | nil => cases hmem
    | cons en rest ih =>
      obtain ⟨g, u⟩ := en
      simp only [List.map_cons, List.nodup_cons] at hnd
      rcases List.mem_cons.mp hmem with heq | hmem'
      · obtain ⟨rfl, rfl⟩ : fn = g ∧ url = u := by
          exact ⟨congrArg Prod.fst heq, congrArg Prod.snd heq⟩
        rw [fetchAll]
        simp only [fetchOne, hfail]
        intro hcontra
        simp only [writes, List.cons_append, List.nil_append] at hcontra
        have : fn ∈ rest.map Prod.fst :=
          writes_names_in_entries net rest fn (by simpa [writes] using hcontra)
        exact hnd.1 this
      · have hfn : fn ∈ rest.map Prod.fst :=
          List.mem_map_of_mem Prod.fst hmem'
        have hne : fn ≠ g := fun hfg => hnd.1 (hfg ▸ hfn)
        cases hnet : net u with
        | ok c =>
          rw [fetchAll]
          simp only [fetchOne, hnet]
          simp only [writes, writes_append, List.cons_append, List.nil_append,
            List.map_cons, List.mem_cons]
          intro hcontra
          rcases hcontra with h | h
          · exact hne h
          · exact ih hmem' hnd.2 (by simpa [writes] using h)
        | error e2 =>
          rw [fetchAll]
          simp only [fetchOne, hnet]
          simp only [writes, List.cons_append, List.nil_append]
          intro hcontra
          exact ih hmem' hnd.2 (by simpa [writes] using hcontra)
  exact ⟨hnotin, applyWrites_not_written fn _ fs0 hnotin⟩

theorem c10_failed_fetch_never_writes_witness :
    "00_setup.sql" ∉
      (writes (fetchAll
        (fun u => if u == "u1" then Except.error "HTTP 404" else Except.ok "body")
        [("00_setup.sql", "u1"), ("01_vignette_1.sql", "u2")])).map Prod.fst
    ∧ applyWrites (fun _ => some "previous content")
        (writes (fetchAll
          (fun u => if u == "u1" then Except.error "HTTP 404" else Except.ok "body")
          [("00_setup.sql", "u1"), ("01_vignette_1.sql", "u2")]))
        "00_setup.sql"
      = some "previous content" :=
  c10_failed_fetch_never_writes _ _ "00_setup.sql" "u1" "HTTP 404"
    (fun _ => some "previous content") (by decide) (by decide) rfl

/-! ### Connection-setup claim theorems -/

theorem mem_promptIf_iff {v : Option String} {ev x : PromptEv} :
    x ∈ promptIf v ev ↔ (x = ev ∧ truthy v = false) := by
  unfold promptIf
  cases hv : truthy v <;> simp [hv]

/-- C6 counterexample: with user, password and account set and warehouse
unset, `get_connection` issues no prompt at all and passes the unset
warehouse through as None — the claim's "if its environment variable is
unset, the program falls back to an interactive prompt for that parameter"
fails for the warehouse parameter on this input. -/
theorem c6_unset_warehouse_not_prompted :
    (get_connection
        ⟨some "u", some "p", some "a", none, none, none, none⟩
        ⟨"", "", "", "", "", "", ""⟩).2 = []
    ∧ (get_connection
        ⟨some "u", some "p", some "a", none, none, none, none⟩
        ⟨"", "", "", "", "", "", ""⟩).1.warehouse = none := by
  decide

/-- C6 (amended): `get_connection` prompts only when the user, password or
account variable is missing or empty.  When those three are all present it
issues no prompt and passes all seven variables through unchanged — unset
warehouse, role, database and schema go to the connector as None.  When one
of the three is missing, each of the seven parameters is prompted exactly
when it is missing or empty (an iff per parameter), the credential through
the non-echoing `getpass` prompt, and no echoed prompt is ever issued for
the credential's label. -/
theorem c6_prompts_only_when_core_missing (env : EnvVars) (pr : Prompts) :
    ((truthy env.user && truthy env.password && truthy env.account) = true →
        (get_connection env pr).2 = []
        ∧ (get_connection env pr).1
            = ⟨env.user, env.password, env.account, env.warehouse,
               env.role, env.database, env.schema⟩)
    ∧ ((truthy env.user && truthy env.password && truthy env.account) = false →
        (PromptEv.visible accountLabel ∈ (get_connection env pr).2
            ↔ truthy env.account = false)
        ∧ (PromptEv.visible userLabel ∈ (get_connection env pr).2
            ↔ truthy env.user = false)
        ∧ (PromptEv.hidden passwordLabel ∈ (get_connection env pr).2
            ↔ truthy env.password = false)
        ∧ (PromptEv.visible warehouseLabel ∈ (get_connection env pr).2
            ↔ truthy env.warehouse = false)
        ∧ (PromptEv.visible roleLabel ∈ (get_connection env pr).2
            ↔ truthy env.role = false)
        ∧ (PromptEv.visible databaseLabel ∈ (get_connection env pr).2
            ↔ truthy env.database = false)
        ∧ (PromptEv.visible schemaLabel ∈ (get_connection env pr).2
            ↔ truthy env.schema = false)
        ∧ ∀ l, PromptEv.visible l ∈ (get_connection env pr).2 →
            l ≠ passwordLabel) := by
  constructor
  · intro h
    constructor <;> simp [get_connection, h]
  · intro h
    have hshape : (get_connection env pr).2 =
        promptIf env.account (PromptEv.visible accountLabel) ++
        promptIf env.user (PromptEv.visible userLabel) ++
        promptIf env.password (PromptEv.hidden passwordLabel) ++
        promptIf env.warehouse (PromptEv.visible warehouseLabel) ++
        promptIf env.role (PromptEv.visible roleLabel) ++
        promptIf env.database (PromptEv.visible databaseLabel) ++
        promptIf env.schema (PromptEv.visible schemaLabel) := by
      simp [get_connection, h]
    have hch : ∀ x : PromptEv, x ∈ (get_connection env pr).2 ↔
        ((x = PromptEv.visible accountLabel ∧ truthy env.account = false)
        ∨ (x = PromptEv.visible userLabel ∧ truthy env.user = false)
        ∨ (x = PromptEv.hidden passwordLabel ∧ truthy env.password = false)
        ∨ (x = PromptEv.visible warehouseLabel ∧ truthy env.warehouse = false)
        ∨ (x = PromptEv.visible roleLabel ∧ truthy env.role = false)
        ∨ (x = PromptEv.visible databaseLabel ∧ truthy env.database = false)
        ∨ (x = PromptEv.visible schemaLabel ∧ truthy env.schema = false)) := by
      intro x
      rw [hshape]
      simp only [List.mem_append, mem_promptIf_iff, or_assoc]
    refine ⟨?_, ?_, ?_, ?_, ?_, ?_, ?_, ?_⟩
    · rw [hch]
      constructor
      · rintro (⟨heq, hf⟩ | ⟨heq, hf⟩ | ⟨heq, hf⟩ | ⟨heq, hf⟩ | ⟨heq, hf⟩ |
          ⟨heq, hf⟩ | ⟨heq, hf⟩) <;>
          first
          | exact hf
          | exact absurd heq (by decide)
      · intro hx
        exact Or.inl ⟨rfl, hx⟩
    · rw [hch]
      constructor
      · rintro (⟨heq, hf⟩ | ⟨heq, hf⟩ | ⟨heq, hf⟩ | ⟨heq, hf⟩ | ⟨heq, hf⟩ |
          ⟨heq, hf⟩ | ⟨heq, hf⟩) <;>
          first
          | exact hf
          | exact absurd heq (by decide)
      · intro hx
        exact Or.inr (Or.inl ⟨rfl, hx⟩)
    · rw [hch]
      constructor
      · rintro (⟨heq, hf⟩ | ⟨heq, hf⟩ | ⟨heq, hf⟩ | ⟨heq, hf⟩ | ⟨heq, hf⟩ |
          ⟨heq, hf⟩ | ⟨heq, hf⟩) <;>
          first
          | exact hf
          | exact absurd heq (by decide)
      · intro hx
        exact Or.inr (Or.inr (Or.inl ⟨rfl, hx⟩))
    · rw [hch]
      constructor
      · rintro (⟨heq, hf⟩ | ⟨heq, hf⟩ | ⟨heq, hf⟩ | ⟨heq, hf⟩ | ⟨heq, hf⟩ |
          ⟨heq, hf⟩ | ⟨heq, hf⟩) <;>
          first
          | exact hf
          | exact absurd heq (by decide)
      · intro hx
        exact Or.inr (Or.inr (Or.inr (Or.inl ⟨rfl, hx⟩)))
    · rw [hch]
      constructor
      · rintro (⟨heq, hf⟩ | ⟨heq, hf⟩ | ⟨heq, hf⟩ | ⟨heq, hf⟩ | ⟨heq, hf⟩ |
          ⟨heq, hf⟩ | ⟨heq, hf⟩) <;>
          first
          | exact hf
          | exact absurd heq (by decide)
      · intro hx
        exact Or.inr (Or.inr (Or.inr (Or.inr (Or.inl ⟨rfl, hx⟩))))
    · rw [hch]
      constructor
      · rintro (⟨heq, hf⟩ | ⟨heq, hf⟩ | ⟨heq, hf⟩ | ⟨heq, hf⟩ | ⟨heq, hf⟩ |
          ⟨heq, hf⟩ | ⟨heq, hf⟩) <;>
          first
          | exact hf
          | exact absurd heq (by decide)
      · intro hx
        exact Or.inr (Or.inr (Or.inr (Or.inr (Or.inr (Or.inl ⟨rfl, hx⟩)))))
    · rw [hch]
      constructor
      · rintro (⟨heq, hf⟩ | ⟨heq, hf⟩ | ⟨heq, hf⟩ | ⟨heq, hf⟩ | ⟨heq, hf⟩ |
          ⟨heq, hf⟩ | ⟨heq, hf⟩) <;>
          first
          | exact hf
          | exact absurd heq (by decide)
      · intro hx
        exact Or.inr (Or.inr (Or.inr (Or.inr (Or.inr (Or.inr ⟨rfl, hx⟩)))))
    · intro l hl
      rw [hch] at hl
      rcases hl with ⟨heq, _⟩ | ⟨heq, _⟩ | ⟨heq, _⟩ | ⟨heq, _⟩ | ⟨heq, _⟩ |
        ⟨heq, _⟩ | ⟨heq, _⟩
      · injection heq with h2
        subst h2
        decide
      · injection heq with h2
        subst h2
        decide
      · exact PromptEv.noConfusion heq
      · injection heq with h2
        subst h2
        decide
      · injection heq with h2
        subst h2
        decide
      · injection heq with h2
        subst h2
        decide
      · injection heq with h2
        subst h2
        decide

theorem c6_prompts_only_when_core_missing_witness :
    PromptEv.hidden passwordLabel ∈
      (get_connection ⟨none, none, none, none, none, none, none⟩
        ⟨"acc", "usr", "pw", "", "", "", ""⟩).2 :=
  (((c6_prompts_only_when_core_missing
      ⟨none, none, none, none, none, none, none⟩
      ⟨"acc", "usr", "pw", "", "", "", ""⟩).2 (by decide)).2.2.1).mpr (by decide)

/-! ### Cortex AI query-construction lemmas and claim theorem -/

theorem escData_count_quote (l : List Char) :
    (escData l).count squote = 2 * l.count squote := by
  induction l with
  | nil => rfl
  | cons c rest ih =>
    by_cases hc : c = squote
    · subst hc
      simp [escData, List.count_cons, ih]
      omega
    · have hc2 : ¬(squote = c) := fun hb => hc hb.symm
      simp [escData, hc, List.count_cons, hc2, ih]

theorem safe_input_data (u : String) : (safe_input u).data = escData u.data := by
  unfold safe_input
  by_cases hu : u = ""
  · subst hu
    rfl
  · have hb : (u == "") = false := by simpa using hu
    rw [hb]
    rfl

theorem countQuote_append (s t : String) :
    countQuote (s ++ t) = countQuote s + countQuote t := by
  simp [countQuote, String.data_append, List.count_append]

/-- C8: for every user input (and target language), `safe_input` is the
source text with every single quote doubled — character for character, with
all other characters kept — so each of the four Cortex query strings
contains twice the input's quote count plus only the template's own
delimiting quotes; no lone quote from the user text survives into the
interpolated query. -/
theorem c8_quotes_escaped_before_interpolation (u lang : String) :
    (safe_input u).data = escData u.data
    ∧ countQuote (safe_input u) = 2 * countQuote u
    ∧ countQuote (sentimentQuery u) = 2 * countQuote u + 2
    ∧ countQuote (translateQuery u lang) = 2 * countQuote u + countQuote lang + 6
    ∧ countQuote (summarizeQuery u) = 2 * countQuote u + 2
    ∧ countQuote (extractQuery u) = 2 * countQuote u + 4 := by
  have h1 := safe_input_data u
  have h2 : countQuote (safe_input u) = 2 * countQuote u := by
    unfold countQuote
    rw [h1]
    exact escData_count_quote _
  have hq : countQuote quoteStr = 1 := by decide
  refine ⟨h1, h2, ?_, ?_, ?_, ?_⟩
  · have e1 : countQuote "SELECT SNOWFLAKE.CORTEX.SENTIMENT(" = 0 := by decide
    have e2 : countQuote ") AS VAL" = 0 := by decide
    unfold sentimentQuery
    simp only [countQuote_append, h2, hq, e1, e2]
    omega
  · have e1 : countQuote "SELECT SNOWFLAKE.CORTEX.TRANSLATE(" = 0 := by decide
    have e2 : countQuote ") AS VAL" = 0 := by decide
    have e3 : countQuote ", " = 0 := by decide
    have e4 : countQuote "en" = 0 := by decide
    unfold translateQuery
    simp only [countQuote_append, h2, hq, e1, e2, e3, e4]
    omega
  · have e1 : countQuote "SELECT SNOWFLAKE.CORTEX.SUMMARIZE(" = 0 := by decide
    have e2 : countQuote ") AS VAL" = 0 := by decide
    unfold summarizeQuery
    simp only [countQuote_append, h2, hq, e1, e2]
    omega
  · have e1 : countQuote "SELECT SNOWFLAKE.CORTEX.EXTRACT_ANSWER(" = 0 := by decide
    have e2 : countQuote ") AS VAL" = 0 := by decide
    have e3 : countQuote ", " = 0 := by decide
    have e4 : countQuote "What was good and what was bad?" = 0 := by decide
    unfold extractQuery
    simp only [countQuote_append, h2, hq, e1, e2, e3, e4]
    omega
